import Mathlib

/-!
Shallow embedding of the intent-resolution and task-dispatch pipeline of the
PROJECT-GIRAFEE repository (src/src/core/ai_engine.py and the dispatch part of
src/src/core/automation_engine.py), together with theorems settling the
claims about it.

Strings are modelled as lists of characters.  Python regular expressions are
modelled by a small backtracking matcher over an abstract pattern type that
covers exactly the constructs appearing in the repository patterns: literals,
ordered alternation, concatenation, greedy one-or-more over a character
class, greedy option, and a single capture group.  Backtracking preference
order (leftmost start, greedy quantifiers, left alternative first) follows
the semantics of re.search in CPython.
-/

namespace Girafee

/-- Whitespace as recognised by the ASCII fragments of Python re \\s and
str.split. -/
def isPySpace (c : Char) : Bool :=
  c = ' ' || c = '\t' || c = '\n' || c = '\r' || c = '\x0b' || c = '\x0c'

/-- Word characters as recognised by the ASCII fragment of Python re \\w. -/
def isPyWord (c : Char) : Bool :=
  c.isAlphanum || c = '_'

/-- ASCII lower-casing of one character, the fragment of Python str.lower
relevant to the repository inputs. -/
def pyLowerChar (c : Char) : Char :=
  if 'A' ≤ c ∧ c ≤ 'Z' then Char.ofNat (c.toNat + 32) else c

/-- Model of Python str.lower on a character list. -/
def pyLower (s : List Char) : List Char := s.map pyLowerChar

/-- Model of the Python containment test (word in text): substring test. -/
def strIn (needle : List Char) : List Char → Bool
  | [] => needle.isPrefixOf []
  | c :: t => needle.isPrefixOf (c :: t) || strIn needle t

/-- Model of Python str.split() with no separator: split on runs of
whitespace, dropping empty pieces. -/
def pySplitAux : List Char → List Char → List (List Char)
  | [], acc => if acc.isEmpty then [] else [acc.reverse]
  | c :: t, acc =>
      if isPySpace c then
        if acc.isEmpty then pySplitAux t [] else acc.reverse :: pySplitAux t []
      else pySplitAux t (c :: acc)

def pySplit (s : List Char) : List (List Char) := pySplitAux s []

/-- Model of Python str.strip(): drop leading and trailing whitespace. -/
def pyStrip (s : List Char) : List Char :=
  ((s.dropWhile isPySpace).reverse.dropWhile isPySpace).reverse

/-- Character classes occurring in the repository regexes. -/
inductive CC where
  | word   -- \w
  | space  -- \s
  | dot    -- . (any character except newline)
deriving Repr, DecidableEq

def ccMatch : CC → Char → Bool
  | .word, c => isPyWord c
  | .space, c => isPySpace c
  | .dot, c => c ≠ '\n'

/-- Abstract regular expressions: the constructs used by the repository. -/
inductive RE where
  | lit : List Char → RE           -- a literal string
  | alt2 : RE → RE → RE            -- ordered alternation, left first
  | cat : RE → RE → RE             -- concatenation
  | plus : CC → RE                 -- greedy one-or-more of a class
  | opt : RE → RE                  -- greedy option (...)?
  | grp : RE → RE                  -- the (single) capture group

/-- The capture state: the text captured by the group, when the pattern has
one and the match reached it. -/
abbrev Caps := Option (List Char)

/-- Try match lengths for a greedy quantifier: longest first, down to one
character. -/
def tryDrops (cont : List Char → Option Caps) (cs : List Char) :
    Nat → Option Caps
  | 0 => none
  | k + 1 => (cont (cs.drop (k + 1))).orElse fun _ => tryDrops cont cs k

/-- Backtracking matcher in continuation-passing style.  The continuation
receives the remaining input and capture state; the first success in the
preference order wins. -/
def reMatch : RE → List Char → (List Char → Caps → Option Caps) → Caps →
    Option Caps
  | .lit l, cs, cont, caps =>
      if l.isPrefixOf cs then cont (cs.drop l.length) caps else none
  | .alt2 r1 r2, cs, cont, caps =>
      (reMatch r1 cs cont caps).orElse fun _ => reMatch r2 cs cont caps
  | .cat r1 r2, cs, cont, caps =>
      reMatch r1 cs (fun cs2 caps2 => reMatch r2 cs2 cont caps2) caps
  | .plus cc, cs, cont, caps =>
      tryDrops (fun rest => cont rest caps) cs (cs.takeWhile (ccMatch cc)).length
  | .opt r, cs, cont, caps =>
      (reMatch r cs cont caps).orElse fun _ => cont cs caps
  | .grp r, cs, cont, caps =>
      reMatch r cs
        (fun cs2 _ => cont cs2 (some (cs.take (cs.length - cs2.length)))) caps

/-- A match anchored at the current position; any remaining input is
accepted, as for an unanchored Python pattern. -/
def reMatchAt (r : RE) (cs : List Char) : Option Caps :=
  reMatch r cs (fun _ caps => some caps) none

/-- Model of re.search: the leftmost starting position admitting a match
wins; the result is none when the pattern matches nowhere, and otherwise
carries the capture state of the chosen match. -/
def reSearch (r : RE) : List Char → Option Caps
  | [] => reMatchAt r []
  | c :: t =>
      match reMatchAt r (c :: t) with
      | some caps => some caps
      | none => reSearch r t

/-- Sequence a nonempty list of pattern pieces. -/
def reSeq (r : RE) (rs : List RE) : RE := rs.foldl .cat r

/-- Ordered alternation over a nonempty list of pieces, left first. -/
def reAlts (r : RE) (rs : List RE) : RE := rs.foldl .alt2 r

def w (s : String) : RE := .lit s.data

/-! ### Task templates (AIEngine.load_task_templates) -/

/-- A task template: ordered regex patterns, a fixed action tag, and the
declared parameter names. -/
structure Template where
  patterns : List RE
  action : String
  parameters : List String

/-- Pattern open\\s+(\\w+). -/
def patOpenW : RE := reSeq (w "open") [.plus .space, .grp (.plus .word)]

/-- Pattern launch\\s+(\\w+). -/
def patLaunchW : RE := reSeq (w "launch") [.plus .space, .grp (.plus .word)]

/-- Pattern start\\s+(\\w+). -/
def patStartW : RE := reSeq (w "start") [.plus .space, .grp (.plus .word)]

/-- Pattern search\\s+(?:for\\s+)?(.+). -/
def patSearchQ : RE :=
  reSeq (w "search") [.plus .space, .opt (.cat (w "for") (.plus .space)),
    .grp (.plus .dot)]

/-- Pattern google\\s+(.+). -/
def patGoogleQ : RE := reSeq (w "google") [.plus .space, .grp (.plus .dot)]

/-- Pattern find\\s+(.+). -/
def patFindQ : RE := reSeq (w "find") [.plus .space, .grp (.plus .dot)]

/-- Pattern (?:open|create|save|delete)\\s+(?:file|folder)\\s+(.+). -/
def patFileOp1 : RE :=
  reSeq (reAlts (w "open") [w "create", w "save", w "delete"])
    [.plus .space, reAlts (w "file") [w "folder"], .plus .space,
     .grp (.plus .dot)]

/-- Pattern (?:open|create|save|delete)\\s+(.+). -/
def patFileOp2 : RE :=
  reSeq (reAlts (w "open") [w "create", w "save", w "delete"])
    [.plus .space, .grp (.plus .dot)]

/-- Pattern (?:shutdown|restart|sleep|wake)\\s+(?:computer|pc). -/
def patSysCtl1 : RE :=
  reSeq (reAlts (w "shutdown") [w "restart", w "sleep", w "wake"])
    [.plus .space, reAlts (w "computer") [w "pc"]]

/-- Pattern (?:volume|brightness|wifi|bluetooth)\\s+(?:up|down|on|off). -/
def patSysCtl2 : RE :=
  reSeq (reAlts (w "volume") [w "brightness", w "wifi", w "bluetooth"])
    [.plus .space, reAlts (w "up") [w "down", w "on", w "off"]]

/-- The open_application template. -/
def openApplicationT : Template :=
  ⟨[patOpenW, patLaunchW, patStartW], "open_app", ["app_name"]⟩

/-- The web_search template. -/
def webSearchT : Template :=
  ⟨[patSearchQ, patGoogleQ, patFindQ], "web_search", ["query"]⟩

/-- The file_operation template. -/
def fileOperationT : Template :=
  ⟨[patFileOp1, patFileOp2], "file_operation", ["file_path", "operation"]⟩

/-- The system_control template. -/
def systemControlT : Template :=
  ⟨[patSysCtl1, patSysCtl2], "system_control", ["control_type", "value"]⟩

/-- AIEngine.load_task_templates: the ordered template table. -/
def task_templates : List (String × Template) :=
  [("open_application", openApplicationT),
   ("web_search", webSearchT),
   ("file_operation", fileOperationT),
   ("system_control", systemControlT)]

/-! ### Parameter extraction (AIEngine.extract_parameters) -/

/-- Regex of the app_name parameter pass: (?:open|launch|start)\\s+(\\w+). -/
def appNameRE : RE :=
  reSeq (reAlts (w "open") [w "launch", w "start"])
    [.plus .space, .grp (.plus .word)]

/-- Regex of the query parameter pass:
(?:search|google|find)\\s+(?:for\\s+)?(.+). -/
def queryRE : RE :=
  reSeq (reAlts (w "search") [w "google", w "find"])
    [.plus .space, .opt (.cat (w "for") (.plus .space)), .grp (.plus .dot)]

/-- Regex of the file_path parameter pass: (?:file|folder)\\s+(.+). -/
def filePathRE : RE :=
  reSeq (reAlts (w "file") [w "folder"]) [.plus .space, .grp (.plus .dot)]

/-- The parameter-extraction pass applied to a given text as-is: for each
declared parameter name among app_name, query, file_path, re-derive the
value with its own regex over that text. -/
def extractParametersOnText (text : List Char) (t : Template) :
    List (String × String) :=
  (if t.parameters.contains "app_name" then
     match reSearch appNameRE text with
     | some (some g) => [("app_name", g.asString)]
     | _ => []
   else []) ++
  (if t.parameters.contains "query" then
     match reSearch queryRE text with
     | some (some g) => [("query", g.asString)]
     | _ => []
   else []) ++
  (if t.parameters.contains "file_path" then
     match reSearch filePathRE text with
     | some (some g) => [("file_path", g.asString)]
     | _ => []
   else [])

/-- AIEngine.extract_parameters: for each declared parameter name among
app_name, query, file_path, re-derive the value with its own regex, each
applied to message.lower(). -/
def extract_parameters (message : String) (t : Template) :
    List (String × String) :=
  (if t.parameters.contains "app_name" then
     match reSearch appNameRE (pyLower message.data) with
     | some (some g) => [("app_name", g.asString)]
     | _ => []
   else []) ++
  (if t.parameters.contains "query" then
     match reSearch queryRE (pyLower message.data) with
     | some (some g) => [("query", g.asString)]
     | _ => []
   else []) ++
  (if t.parameters.contains "file_path" then
     match reSearch filePathRE (pyLower message.data) with
     | some (some g) => [("file_path", g.asString)]
     | _ => []
   else [])

/-! ### Action and target extraction (AIEngine.extract_action_target) -/

/-- Try the ordered patterns of one template; first match wins. -/
def matchTemplate (ml : List Char) : List RE → Option Caps
  | [] => none
  | p :: ps =>
      match reSearch p ml with
      | some caps => some caps
      | none => matchTemplate ml ps

/-- Walk the template table in declared order; the first template with a
matching pattern wins. -/
def findTemplate (ml : List Char) :
    List (String × Template) → Option (Template × Caps)
  | [] => none
  | (_, t) :: rest =>
      match matchTemplate ml t.patterns with
      | some caps => some (t, caps)
      | none => findTemplate ml rest

/-- AIEngine.extract_action_target: templates first, positional word-split
fallback otherwise. -/
def extract_action_target (message : String) :
    String × String × List (String × String) :=
  let message_lower := pyLower message.data
  match findTemplate message_lower task_templates with
  | some (t, caps) =>
      (t.action, (caps.map List.asString).getD "",
       extract_parameters message t)
  | none =>
      match pySplit message_lower with
      | x :: y :: ys =>
          (x.asString, (List.intercalate [' '] (y :: ys)).asString, [])
      | _ => ("unknown", message, [])

/-! ### Intent classification (AIEngine.setup_intent_classifier,
AIEngine.parse_intent) -/

/-- The automation keyword bucket. -/
def intents_automation : List String :=
  ["open", "close", "click", "type", "navigate", "search",
   "start", "stop", "launch", "switch", "minimize", "maximize"]

/-- The information keyword bucket. -/
def intents_information : List String :=
  ["what", "how", "why", "when", "where", "explain", "tell",
   "show", "find", "search", "lookup"]

/-- The workflow keyword bucket. -/
def intents_workflow : List String :=
  ["record", "save", "create", "edit", "run", "execute",
   "schedule", "automate", "workflow"]

/-- Count how many bucket words occur as substrings of the lower-cased
text: sum(1 for word in bucket if word in message_lower). -/
def bucketScore (message_lower : List Char) (bucket : List String) : Nat :=
  (bucket.filter fun kw => strIn kw.data message_lower).length

/-- Model of Python max(scores, key=scores.get) over the remaining entries,
given the current best key and value: a later entry replaces the current
one only when its value is strictly greater, so on ties the earliest entry
wins. -/
def pyMaxKey : String → Nat → List (String × Nat) → String
  | k, _, [] => k
  | k, v, (k2, v2) :: rest =>
      if v2 > v then pyMaxKey k2 v2 rest else pyMaxKey k v rest

/-- The TaskIntent record produced by the AI engine. -/
structure TaskIntent where
  action : String
  target : String
  parameters : List (String × String)
  confidence : ℚ
  task_type : String

/-- AIEngine.parse_intent. -/
def parse_intent (message : String) : TaskIntent :=
  let message_lower := pyLower message.data
  let automation_score := bucketScore message_lower intents_automation
  let info_score := bucketScore message_lower intents_information
  let workflow_score := bucketScore message_lower intents_workflow
  let scores : List (String × Nat) :=
    [("automation", automation_score), ("information", info_score),
     ("workflow", workflow_score)]
  let task_type :=
    pyMaxKey "automation" automation_score
      [("information", info_score), ("workflow", workflow_score)]
  let confidence : ℚ :=
    ((scores.lookup task_type).getD 0 : ℚ)
      / (max (pySplit message.data).length 1 : ℚ)
  let eat := extract_action_target message
  ⟨eat.1, eat.2.1, eat.2.2, confidence, task_type⟩

/-- The four handler branches of AIEngine.process_message. -/
inductive Handler where
  | automation
  | information
  | workflow
  | chat
deriving Repr, DecidableEq

/-- The branch AIEngine.process_message selects for a message. -/
def process_message_branch (message : String) : Handler :=
  let intent := parse_intent message
  if intent.task_type = "automation" then .automation
  else if intent.task_type = "information" then .information
  else if intent.task_type = "workflow" then .workflow
  else .chat

/-! ### Response backend chain (AIEngine.generate_chat_response and the
three generators) -/

/-- The configuration and remote behaviour the chain depends on: the two
configuration flags per backend (use_x and the truthiness of the api key)
and, as an oracle, what each remote call does on a given message: return
text or raise. -/
structure AIBackends where
  use_gemini : Bool
  gemini_api_key : Bool
  gemini_generate : String → Except Unit String
  use_openai : Bool
  api_key : Bool
  openai_create : String → Except Unit String

/-- AIEngine.generate_local_response: keyword responder, generic phrase as
the last resort. -/
def generate_local_response (message : String) : String :=
  let message_lower := pyLower message.data
  if ["hello", "hi", "hey"].any (fun kw => strIn kw.data message_lower) then
    "Hello! I'm your Windows AI Assistant. How can I help you today?"
  else if ["help", "what can you do"].any
      (fun kw => strIn kw.data message_lower) then
    "I can help you with:\n• Opening applications and files\n• Web searches and browsing\n• File and folder operations\n• System controls (volume, brightness, etc.)\n• Creating and running workflows\n• Answering questions about Windows\nJust tell me what you'd like to do!"
  else if ["open", "launch", "start"].any
      (fun kw => strIn kw.data message_lower) then
    "I can help you open applications and files. Just tell me what you'd like to open!"
  else if ["search", "find", "google"].any
      (fun kw => strIn kw.data message_lower) then
    "I can help you search the web or find files on your computer. What are you looking for?"
  else
    "I understand you're asking about that. Let me help you with that task or question!"

/-- AIEngine.generate_gemini_response: on any fault of the remote call the
except branch returns the local response. -/
def generate_gemini_response (b : AIBackends) (message : String) : String :=
  match b.gemini_generate message with
  | .ok text => (pyStrip text.data).asString
  | .error _ => generate_local_response message

/-- AIEngine.generate_openai_response: on any fault of the remote call the
except branch returns the local response. -/
def generate_openai_response (b : AIBackends) (message : String) : String :=
  match b.openai_create message with
  | .ok text => (pyStrip text.data).asString
  | .error _ => generate_local_response message

/-- AIEngine.generate_chat_response: Gemini branch when configured, else
OpenAI branch when configured, else the local responder. -/
def generate_chat_response (b : AIBackends) (message : String) : String :=
  if b.use_gemini && b.gemini_api_key then generate_gemini_response b message
  else if b.use_openai && b.api_key then generate_openai_response b message
  else generate_local_response message

/-! ### Task dispatch (AutomationEngine.execute_task and the operation
selection of AutomationEngine.perform_file_operation) -/

/-- The five executors execute_task dispatches to, as oracles: each one
performs its OS effects and yields a result string. -/
structure ExecHandlers where
  open_application : String → List (String × String) → String
  perform_web_search : String → List (String × String) → String
  perform_file_operation : String → List (String × String) → String
  perform_system_control : String → List (String × String) → String
  perform_interaction : String → String → List (String × String) → String

/-- The result string produced by the dispatch of
AutomationEngine.execute_task on an action tag. -/
def execute_task_result (h : ExecHandlers) (action target : String)
    (parameters : List (String × String)) : String :=
  if action = "open_app" then h.open_application target parameters
  else if action = "web_search" then h.perform_web_search target parameters
  else if action = "file_operation" then
    h.perform_file_operation target parameters
  else if action = "system_control" then
    h.perform_system_control target parameters
  else if ["click", "type", "press"].contains action then
    h.perform_interaction action target parameters
  else "Unknown action: " ++ action

/-- The operation selected by AutomationEngine.perform_file_operation:
parameters.get(operation, open). -/
def fileOperationSelected (parameters : List (String × String)) : String :=
  (parameters.lookup "operation").getD "open"

/-! ### Helper lemmas -/

/-- The Python max over three entries picks the first entry attaining the
greatest value. -/
lemma pyMaxKey_three (k1 k2 k3 : String) (v1 v2 v3 : Nat) :
    pyMaxKey k1 v1 [(k2, v2), (k3, v3)] =
      if v2 ≤ v1 ∧ v3 ≤ v1 then k1 else if v3 ≤ v2 then k2 else k3 := by
  simp only [pyMaxKey]
  split_ifs <;> first | rfl | (exfalso; omega)

/-- Looking the winner back up in the score table yields the greatest
value, with ties resolved towards the earlier entry. -/
lemma lookup_pyMaxKey_three (a i wf : Nat) :
    (([("automation", a), ("information", i), ("workflow", wf)] :
        List (String × Nat)).lookup
      (pyMaxKey "automation" a [("information", i), ("workflow", wf)])).getD 0
      = if i ≤ a ∧ wf ≤ a then a else if wf ≤ i then i else wf := by
  rw [pyMaxKey_three]
  split_ifs <;> rfl

lemma parse_intent_task_type (message : String) :
    (parse_intent message).task_type =
      pyMaxKey "automation"
        (bucketScore (pyLower message.data) intents_automation)
        [("information", bucketScore (pyLower message.data) intents_information),
         ("workflow", bucketScore (pyLower message.data) intents_workflow)] :=
  rfl

lemma parse_intent_confidence (message : String) :
    (parse_intent message).confidence =
      ((([("automation", bucketScore (pyLower message.data) intents_automation),
          ("information", bucketScore (pyLower message.data) intents_information),
          ("workflow", bucketScore (pyLower message.data) intents_workflow)] :
            List (String × Nat)).lookup
          (parse_intent message).task_type).getD 0 : ℚ)
        / (max (pySplit message.data).length 1 : ℚ) :=
  rfl

/-- The task type is always one of the three bucket names. -/
lemma parse_intent_task_type_mem (message : String) :
    (parse_intent message).task_type = "automation" ∨
    (parse_intent message).task_type = "information" ∨
    (parse_intent message).task_type = "workflow" := by
  rw [parse_intent_task_type, pyMaxKey_three]
  split_ifs <;> simp

/-- Every branch of the local responder returns a nonempty literal. -/
lemma generate_local_response_ne_empty (message : String) :
    generate_local_response message ≠ "" := by
  unfold generate_local_response
  dsimp only
  split_ifs <;> decide

/-- An association list none of whose keys is k has no entry at k. -/
lemma lookup_eq_none_of_keys {l : List (String × String)} {k : String}
    (h : ∀ p ∈ l, p.1 ≠ k) : l.lookup k = none := by
  induction l with
  | nil => rfl
  | cons p t ih =>
      have hp : p.1 ≠ k := h p (List.mem_cons_self p t)
      have hbeq : (k == p.1) = false := beq_eq_false_iff_ne.2 (Ne.symm hp)
      have ht : List.lookup k t = none :=
        ih fun q hq => h q (List.mem_cons_of_mem p hq)
      simp [List.lookup, hbeq, ht]

/-- A successful template walk returns one of the walked templates. -/
lemma findTemplate_mem {ml : List Char} :
    ∀ {l : List (String × Template)} {t : Template} {caps : Caps},
      findTemplate ml l = some (t, caps) → ∃ n, (n, t) ∈ l := by
  intro l
  induction l with
  | nil => intro t caps h; simp [findTemplate] at h
  | cons p rest ih =>
      intro t caps h
      match p with
      | (n0, t0) =>
        rw [findTemplate] at h
        cases hm : matchTemplate ml t0.patterns with
        | some c =>
            rw [hm] at h
            simp at h
            exact ⟨n0, by simp [h.1]⟩
        | none =>
            rw [hm] at h
            obtain ⟨n, hn⟩ := ih h
            exact ⟨n, List.mem_cons_of_mem _ hn⟩

/-! ### Claim theorems -/

/-- C2: for every input text, parse_intent returns (it is a total function,
so it never raises) a task type in the three buckets, chosen as the bucket
whose keywords occur as substrings of the lower-cased text the greatest
number of times with ties broken by bucket order (automation, information,
workflow), and a confidence equal to the winning count divided by
max(word count, 1), which is nonnegative. -/
theorem C2_classifier_max_first (message : String) :
    ((parse_intent message).task_type =
       if bucketScore (pyLower message.data) intents_information ≤
            bucketScore (pyLower message.data) intents_automation ∧
          bucketScore (pyLower message.data) intents_workflow ≤
            bucketScore (pyLower message.data) intents_automation
       then "automation"
       else if bucketScore (pyLower message.data) intents_workflow ≤
            bucketScore (pyLower message.data) intents_information
       then "information" else "workflow") ∧
    (parse_intent message).task_type ∈
      (["automation", "information", "workflow"] : List String) ∧
    (parse_intent message).confidence =
      ((if bucketScore (pyLower message.data) intents_information ≤
            bucketScore (pyLower message.data) intents_automation ∧
          bucketScore (pyLower message.data) intents_workflow ≤
            bucketScore (pyLower message.data) intents_automation
        then bucketScore (pyLower message.data) intents_automation
        else if bucketScore (pyLower message.data) intents_workflow ≤
            bucketScore (pyLower message.data) intents_information
        then bucketScore (pyLower message.data) intents_information
        else bucketScore (pyLower message.data) intents_workflow : ℕ) : ℚ)
        / (max (pySplit message.data).length 1 : ℚ) ∧
    0 ≤ (parse_intent message).confidence := by
  have h1 := parse_intent_task_type message
  rw [pyMaxKey_three] at h1
  refine ⟨h1, ?_, ?_, ?_⟩
  · rw [h1]; split_ifs <;> simp
  · rw [parse_intent_confidence, parse_intent_task_type,
      lookup_pyMaxKey_three]
  · rw [parse_intent_confidence]
    apply div_nonneg <;> positivity

/-- C3 counterexample: at the one-word input opensearch, two automation
keywords (open, search) occur as substrings, so the confidence is 2, which
is not in the interval [0,1]. -/
theorem C3_confidence_cex :
    (parse_intent "opensearch").confidence = 2 ∧
    ¬ (parse_intent "opensearch").confidence ≤ 1 := by
  have ha : bucketScore (pyLower "opensearch".data) intents_automation = 2 := by
    decide
  have hi : bucketScore (pyLower "opensearch".data) intents_information = 1 := by
    decide
  have hw : bucketScore (pyLower "opensearch".data) intents_workflow = 0 := by
    decide
  have hl : (pySplit "opensearch".data).length = 1 := by decide
  have hc : (parse_intent "opensearch").confidence = 2 := by
    rw [parse_intent_confidence, parse_intent_task_type, ha, hi, hw, hl]
    norm_num [pyMaxKey, List.lookup]
  exact ⟨hc, by rw [hc]; norm_num⟩

/-- C3 amended: for every input text, the confidence of the produced
TaskIntent is a nonnegative rational; it is not bounded by 1. -/
theorem C3_confidence_nonneg (message : String) :
    0 ≤ (parse_intent message).confidence := by
  rw [parse_intent_confidence]
  apply div_nonneg <;> positivity

/-- C9: when no keyword of any bucket occurs as a substring of the
lower-cased text, every bucket scores 0, the tie is resolved to the first
bucket, automation, with confidence 0; and for every message the chat
branch of process_message is never selected. -/
theorem C9_no_keyword_automation (message m2 : String)
    (h : ∀ kw ∈ intents_automation ++ intents_information ++ intents_workflow,
           strIn kw.data (pyLower message.data) = false) :
    (parse_intent message).task_type = "automation" ∧
    (parse_intent message).confidence = 0 ∧
    process_message_branch m2 ≠ Handler.chat := by
  have ha : bucketScore (pyLower message.data) intents_automation = 0 := by
    unfold bucketScore
    rw [List.length_eq_zero, List.filter_eq_nil_iff]
    intro kw hkw
    simp [h kw (List.mem_append.2 (Or.inl (List.mem_append.2 (Or.inl hkw))))]
  have hi : bucketScore (pyLower message.data) intents_information = 0 := by
    unfold bucketScore
    rw [List.length_eq_zero, List.filter_eq_nil_iff]
    intro kw hkw
    simp [h kw (List.mem_append.2 (Or.inl (List.mem_append.2 (Or.inr hkw))))]
  have hw : bucketScore (pyLower message.data) intents_workflow = 0 := by
    unfold bucketScore
    rw [List.length_eq_zero, List.filter_eq_nil_iff]
    intro kw hkw
    simp [h kw (List.mem_append.2 (Or.inr hkw))]
  have htt : (parse_intent message).task_type = "automation" := by
    rw [parse_intent_task_type, ha, hi, hw]
    rfl
  refine ⟨htt, ?_, ?_⟩
  · rw [parse_intent_confidence, htt, ha, hi, hw]
    norm_num
  · rcases parse_intent_task_type_mem m2 with h2 | h2 | h2 <;>
      simp [process_message_branch, h2]

/-- C9 witness: the empty string contains no bucket keyword. -/
theorem C9_no_keyword_automation_w :
    (parse_intent "").task_type = "automation" ∧
    (parse_intent "").confidence = 0 ∧
    process_message_branch "hello" ≠ Handler.chat :=
  C9_no_keyword_automation "" "hello" (by decide)

/-- A backend configuration in which both remote tiers are configured, the
Gemini call raises and the OpenAI call would succeed. -/
def geminiFaultOpenaiOk : AIBackends where
  use_gemini := true
  gemini_api_key := true
  gemini_generate := fun _ => .error ()
  use_openai := true
  api_key := true
  openai_create := fun _ => .ok "FROM_OPENAI"

/-- C1 counterexample: with both remote tiers configured and the Gemini
call failing, the chain returns the local responder output and never
attempts the configured OpenAI tier. -/
theorem C1_gemini_fault_skips_openai_cex :
    generate_chat_response geminiFaultOpenaiOk "ping"
      = generate_local_response "ping" ∧
    generate_chat_response geminiFaultOpenaiOk "ping" ≠ "FROM_OPENAI" := by
  refine ⟨rfl, ?_⟩
  decide

/-- C1 amended: the chain checks Gemini when configured, else OpenAI when
configured, else the local responder; a successful remote call
short-circuits with its stripped text, while a fault in the selected
remote tier falls back directly to the local responder (so a fault in a
configured Gemini tier reaches the local responder, not the OpenAI
tier). -/
theorem C1_backend_chain (b : AIBackends) (message : String) :
    ((b.use_gemini && b.gemini_api_key) = true →
       (∀ t, b.gemini_generate message = .ok t →
          generate_chat_response b message = (pyStrip t.data).asString) ∧
       (∀ e, b.gemini_generate message = .error e →
          generate_chat_response b message = generate_local_response message)) ∧
    ((b.use_gemini && b.gemini_api_key) = false →
     (b.use_openai && b.api_key) = true →
       (∀ t, b.openai_create message = .ok t →
          generate_chat_response b message = (pyStrip t.data).asString) ∧
       (∀ e, b.openai_create message = .error e →
          generate_chat_response b message = generate_local_response message)) ∧
    ((b.use_gemini && b.gemini_api_key) = false →
     (b.use_openai && b.api_key) = false →
       generate_chat_response b message = generate_local_response message) := by
  refine ⟨fun hg => ⟨fun t ht => ?_, fun e he => ?_⟩,
          fun hg ho => ⟨fun t ht => ?_, fun e he => ?_⟩,
          fun hg ho => ?_⟩
  · simp [generate_chat_response, generate_gemini_response, hg, ht]
  · simp [generate_chat_response, generate_gemini_response, hg, he]
  · simp [generate_chat_response, generate_openai_response, hg, ho, ht]
  · simp [generate_chat_response, generate_openai_response, hg, ho, he]
  · simp [generate_chat_response, hg, ho]

/-- C1 witness: instantiating the amended chain description at the
configured-and-faulting-Gemini configuration. -/
theorem C1_backend_chain_w :
    generate_chat_response geminiFaultOpenaiOk "ping"
      = generate_local_response "ping" :=
  ((C1_backend_chain geminiFaultOpenaiOk "ping").1 rfl).2 () rfl

/-- C8: whenever each remote tier is unconfigured or faults on the
message, the chain returns the output of the local keyword responder,
which is a nonempty string, for every input including the empty string. -/
theorem C8_local_fallback (b : AIBackends) (message : String)
    (h1 : (b.use_gemini && b.gemini_api_key) = false ∨
          b.gemini_generate message = .error ())
    (h2 : (b.use_openai && b.api_key) = false ∨
          b.openai_create message = .error ()) :
    generate_chat_response b message = generate_local_response message ∧
    generate_local_response message ≠ "" := by
  refine ⟨?_, generate_local_response_ne_empty message⟩
  unfold generate_chat_response
  rcases h1 with h1 | h1
  · rw [h1]
    rcases h2 with h2 | h2
    · simp [h2]
    · simp [generate_openai_response, h2]
  · rcases hcg : (b.use_gemini && b.gemini_api_key) with _ | _
    · rcases h2 with h2 | h2
      · simp [h2]
      · simp [generate_openai_response, h2]
    · simp [generate_gemini_response, h1]

/-- A backend configuration with no remote tier configured. -/
def noRemoteBackends : AIBackends where
  use_gemini := false
  gemini_api_key := false
  gemini_generate := fun _ => .error ()
  use_openai := false
  api_key := false
  openai_create := fun _ => .error ()

/-- C8 witness: with no remote tier configured, the empty input still
yields the nonempty local response. -/
theorem C8_local_fallback_w :
    generate_chat_response noRemoteBackends "" = generate_local_response "" ∧
    generate_local_response "" ≠ "" :=
  C8_local_fallback noRemoteBackends "" (Or.inl rfl) (Or.inl rfl)

/-- C4: whenever a pattern of the first declared template,
open_application, matches the lower-cased text, extract_action_target
returns that template's action, the first capture group as target, and
that template's parameters, regardless of later templates; within a
template the first matching pattern wins; in particular
open chrome, which the generic file_operation catch-all pattern also
matches, yields open_app with target chrome and parameter app_name
chrome. -/
theorem C4_template_order (message : String) (caps : Caps)
    (h : matchTemplate (pyLower message.data) openApplicationT.patterns
           = some caps) :
    extract_action_target message =
      ("open_app", (caps.map List.asString).getD "",
        extract_parameters message openApplicationT) ∧
    extract_action_target "open chrome"
      = ("open_app", "chrome", [("app_name", "chrome")]) ∧
    reSearch patFileOp2 (pyLower "open chrome".data) ≠ none ∧
    (∀ (ml : List Char) (p : RE) (ps : List RE) (c : Caps),
       reSearch p ml = some c → matchTemplate ml (p :: ps) = some c) := by
  refine ⟨?_, by decide, by decide, fun ml p ps c hc => by
    simp [matchTemplate, hc]⟩
  have hf : findTemplate (pyLower message.data) task_templates
      = some (openApplicationT, caps) := by
    unfold task_templates
    simp [findTemplate, h]
  unfold extract_action_target
  dsimp only
  rw [hf]
  rfl

/-- C4 witness: the theorem instantiated at open chrome, whose first
open_application pattern matches with capture chrome. -/
theorem C4_template_order_w :
    extract_action_target "open chrome"
      = ("open_app", "chrome", [("app_name", "chrome")]) :=
  ((C4_template_order "open chrome" (some "chrome".data) (by decide)).2).1

/-- C5 counterexample: at input Open CHROME the code extracts app_name
chrome because the parameter regex runs on the lower-cased text; the pass
the claim describes, applied to the original text, extracts nothing. -/
theorem C5_lowercase_cex :
    extract_parameters "Open CHROME" openApplicationT
      = [("app_name", "chrome")] ∧
    extractParametersOnText "Open CHROME".data openApplicationT = [] := by
  constructor <;> decide

/-- C5 amended: each declared parameter is re-derived by its own regex
applied to the lower-cased input text (the same second, independent pass,
but on the lower-cased text, not the original); target and a same-named
parameter can still diverge when the two regexes capture different spans,
as at find for cats where the target is for cats and the query parameter
is cats. -/
theorem C5_params_on_lowered (message : String) (t : Template) :
    extract_parameters message t
      = extractParametersOnText (pyLower message.data) t ∧
    (extract_action_target "find for cats").2.1 = "for cats" ∧
    ((extract_action_target "find for cats").2.2).lookup "query"
      = some "cats" :=
  ⟨rfl, by decide, by decide⟩

/-- C6 counterexample: asdkjasd is a single word, so the no-match
fallback returns action unknown with the full text as target, not action
asdkjasd. -/
theorem C6_single_word_cex :
    extract_action_target "asdkjasd" = ("unknown", "asdkjasd", []) ∧
    ("unknown" : String) ≠ "asdkjasd" := by
  constructor <;> decide

/-- C6 amended: on any text matching no template pattern,
extract_action_target returns the whitespace-split fallback: with at
least two words the first word becomes the action and the rest joined by
spaces the target, otherwise action unknown and the full original text as
target, with empty parameters; in particular parse of asdkjasd, one word,
gives action unknown and target asdkjasd. -/
theorem C6_no_match_fallback (message : String)
    (h : findTemplate (pyLower message.data) task_templates = none) :
    extract_action_target message =
      (match pySplit (pyLower message.data) with
       | x :: y :: ys =>
           (x.asString, (List.intercalate [' '] (y :: ys)).asString,
            ([] : List (String × String)))
       | _ => ("unknown", message, [])) := by
  unfold extract_action_target
  dsimp only
  rw [h]

/-- C6 witness: asdkjasd matches no template and is a single word. -/
theorem C6_no_match_fallback_w :
    extract_action_target "asdkjasd" = ("unknown", "asdkjasd", []) :=
  (C6_no_match_fallback "asdkjasd" (by rfl)).trans (by decide)

/-- C7 counterexample: on input hello world no template matches and the
positional fallback makes the first word hello the action tag, which is
none of the known enum values. -/
theorem C7_action_enum_cex :
    (extract_action_target "hello world").1 = "hello" ∧
    "hello" ∉ (["open_app", "web_search", "file_operation",
                "system_control", "click", "type", "press",
                "unknown"] : List String) := by
  constructor <;> decide

/-- C7 amended: the parser produces either one of the four template
action tags, or unknown, or the first word of the unmatched text (which
need not be a known enum value); the dispatcher converts any
unrecognized action tag into the result string Unknown action rather
than raising. -/
theorem C7_actions_and_dispatch :
    (∀ message : String,
       (extract_action_target message).1 ∈
         (["open_app", "web_search", "file_operation", "system_control",
           "unknown"] : List String) ∨
       (extract_action_target message).1 =
         ((pySplit (pyLower message.data)).headD []).asString) ∧
    (∀ (hnd : ExecHandlers) (action target : String)
        (ps : List (String × String)),
       action ∉ (["open_app", "web_search", "file_operation",
                  "system_control", "click", "type", "press"] : List String) →
       execute_task_result hnd action target ps
         = "Unknown action: " ++ action) := by
  constructor
  · intro message
    rcases hf : findTemplate (pyLower message.data) task_templates with
      _ | ⟨t, caps⟩
    · rcases hs : pySplit (pyLower message.data) with _ | ⟨x, _ | ⟨y, ys⟩⟩
      · left
        simp [extract_action_target, hf, hs]
      · left
        simp [extract_action_target, hf, hs]
      · right
        simp [extract_action_target, hf, hs]
    · left
      obtain ⟨n, hn⟩ := findTemplate_mem hf
      have ht : (extract_action_target message).1 = t.action := by
        simp [extract_action_target, hf]
      rw [ht]
      simp [task_templates] at hn
      rcases hn with ⟨_, h⟩ | ⟨_, h⟩ | ⟨_, h⟩ | ⟨_, h⟩ <;> rw [h] <;> decide
  · intro hnd action target ps h
    simp only [List.mem_cons, List.not_mem_nil, or_false, not_or] at h
    obtain ⟨h1, h2, h3, h4, h5, h6, h7⟩ := h
    simp [execute_task_result, h1, h2, h3, h4, h5, h6, h7]

/-- Handlers that record nothing, to instantiate the dispatch claim. -/
def constHandlers : ExecHandlers where
  open_application := fun _ _ => "ok"
  perform_web_search := fun _ _ => "ok"
  perform_file_operation := fun _ _ => "ok"
  perform_system_control := fun _ _ => "ok"
  perform_interaction := fun _ _ _ => "ok"

/-- C7 witness: dispatching the unrecognized tag hello produces the
Unknown action result string. -/
theorem C7_actions_and_dispatch_w :
    execute_task_result constHandlers "hello" "world" []
      = "Unknown action: hello" :=
  (C7_actions_and_dispatch.2 constHandlers "hello" "world" []
    (by decide)).trans (by decide)

/-- Each guarded block of the parameter pass only ever contributes its own
fixed key. -/
lemma mem_param_block {p : String × String} {cond : Bool} {r : RE}
    {text : List Char} {key : String}
    (hp : p ∈ (if cond then
        match reSearch r text with
        | some (some g) => [(key, g.asString)]
        | _ => []
      else [])) : p.1 = key := by
  split at hp
  · split at hp
    · have := List.mem_singleton.1 hp
      rw [this]
    · exact absurd hp (List.not_mem_nil p)
  · exact absurd hp (List.not_mem_nil p)

/-- C10: the parameter pass only produces the keys app_name, query and
file_path for any message and template; no operation parameter is ever
extracted, so the file-operation executor always selects its default
operation open on parser-produced parameters. -/
theorem C10_parameter_keys (message : String) (t : Template) :
    (∀ p ∈ extract_parameters message t,
       p.1 ∈ (["app_name", "query", "file_path"] : List String)) ∧
    (extract_parameters message t).lookup "operation" = none ∧
    fileOperationSelected (extract_parameters message t) = "open" := by
  have hk : ∀ p ∈ extract_parameters message t,
      p.1 ∈ (["app_name", "query", "file_path"] : List String) := by
    intro p hp
    unfold extract_parameters at hp
    rcases List.mem_append.1 hp with hp | hp
    · rcases List.mem_append.1 hp with hp | hp
      · have := mem_param_block hp
        simp [this]
      · have := mem_param_block hp
        simp [this]
    · have := mem_param_block hp
      simp [this]
  have hop : (extract_parameters message t).lookup "operation" = none := by
    refine lookup_eq_none_of_keys fun p hp => ?_
    have hmem := hk p hp
    intro he
    rw [he] at hmem
    simp at hmem
  refine ⟨hk, hop, ?_⟩
  unfold fileOperationSelected
  rw [hop]
  rfl

end Girafee

-- sanity examples for the matcher (kept as anonymous examples)
example : Girafee.reSearch (.cat (Girafee.w "open")
    (.cat (.plus .space) (.grp (.plus .word)))) "open chrome".data
    = some (some "chrome".data) := by decide

example : Girafee.reSearch (.cat (Girafee.w "open")
    (.cat (.plus .space) (.grp (.plus .word)))) "reopen  chrome now".data
    = some (some "chrome".data) := by decide

example : Girafee.reSearch (Girafee.w "pc") "open chrome".data = none := by
  decide
